import Mathlib

/-!
Verification of the Posting-Discovery job service.

Shallow embedding of the job-posting core: the location resolver
(`src/services/geoService.js`), the job store operations
(`src/services/jobService.js`), and the HTTP controllers
(`src/controllers/jobsController.js`), together with theorems settling the
behavioural claims about creation, listing, update and deletion.

Modelling conventions:
* Coordinates are `[longitude, latitude]` pairs.  The repository never
  computes with them itself (spherical distance is evaluated inside the
  geospatial stage of the document store), so they are integers and every
  spatial query is parameterised by an abstract distance function `Dist`.
* The external postcode lookup (`axios.get` against api.postcodes.io) is a
  parameter `lookup : String → Option ExtResult`; `none` covers both a
  not-found response and any transport failure, exactly the two cases the
  source collapses into `null`.  `geocodePostcode` additionally reports
  whether the external call was issued at all (the `Bool` component),
  mirroring whether control reaches the `axios.get` line.
* The document store is a list of job records; `$set`-style updates replace
  whole top-level fields, as `findByIdAndUpdate` does for the nested
  `location` object.
-/

namespace PostingDiscovery

/-- A `[longitude, latitude]` coordinate pair (GeoJSON ordering). -/
abbrev Coord := Int × Int

/-- Abstract spherical distance, evaluated by the `$geoNear` stage of the document store (`spherical: true`); measured in meters. -/
abbrev Dist := Coord → Coord → Nat

/-- The `location` sub-document of the Job schema (`models/Job.js`):
`type` defaults to `"Point"`, `coordinates` is `[lng, lat]`, `postcode` is an
optional string (the schema does not mark it required). `coordinates` is
`Option` because a mongoose update can set `location` without it (update
validators do not re-check `required` on nested paths that a `$set` omits). -/
structure GeoPoint where
  type : String := "Point"
  coordinates : Option Coord := none
  postcode : Option String := none
deriving DecidableEq

/-- A persisted job record, following the Job schema variant the live
controller writes (`imageUrl` as a plain string field). -/
structure Job where
  _id : String
  title : String
  description : String
  category : String
  imageUrl : Option String := none
  status : String := "open"
  customerId : String
  tradesmanId : Option String := none
  location : GeoPoint
  createdAt : Nat
  updatedAt : Nat
deriving DecidableEq

/-- A successful external response from the postcode API: the coordinate
pair and the canonical (normalised) postcode carried in `data.result`. -/
structure ExtResult where
  coordinates : Coord
  postcode : String
deriving DecidableEq

/-- The external lookup: `none` models both "no match" and any transport
failure (the `catch` branch), the two cases `geocodePostcode` folds into
`null`. -/
abbrev Lookup := String → Option ExtResult

/-- The value `geocodePostcode` hands back on success:
`{ coordinates, postcode }`. -/
structure GeoResult where
  coordinates : Coord
  postcode : String
deriving DecidableEq

/-- JavaScript truthiness of an optional string: `undefined`/`null` and the
empty string are falsy. -/
def jsTruthy : Option String → Bool
  | none => false
  | some s => s ≠ ""

/-- Model of `String.prototype.trim`: strip leading and trailing whitespace. -/
def jsTrim (s : String) : String :=
  ⟨((s.data.dropWhile Char.isWhitespace).reverse.dropWhile Char.isWhitespace).reverse⟩

/-- String interpolation of an optional value: JavaScript renders a missing
field as `"undefined"` inside a template literal. -/
def jsShow : Option String → String
  | none => "undefined"
  | some s => s

/-- Model of `geocodePostcode` from `src/services/geoService.js`.

```js
if (!postcode) return null;
const trimmed = postcode.trim();
const geoRes = await axios.get(`.../postcodes/${encodeURIComponent(trimmed)}`);
if (geoRes.data.status === 200 && geoRes.data.result) {
  const { longitude, latitude } = geoRes.data.result;
  return { coordinates: [longitude, latitude], postcode: trimmed };
} else return null;
```

The second component of the result records whether the external call
(`axios.get`) was issued.  Note the returned `postcode` field is the
*trimmed input*, not the canonical postcode of the external response. -/
def geocodePostcode (lookup : Lookup) (postcode : Option String) :
    Option GeoResult × Bool :=
  if jsTruthy postcode = false then (none, false)
  else
    let trimmed := jsTrim (jsShow postcode)
    match lookup trimmed with
    | some r => (some { coordinates := r.coordinates, postcode := trimmed }, true)
    | none => (none, true)

/-- The document store owning persisted jobs. -/
abbrev Store := List Job

/-- Model of `createJob` from `src/services/jobService.js`: insert the new record and
return it. -/
def createJob (store : Store) (data : Job) : Store × Job :=
  (store ++ [data], data)

/-- The query filter the controller builds: `{ status: "open" }` plus the
optional `category`. -/
structure JobFilter where
  status : String
  category : Option String := none
deriving DecidableEq

/-- Document-store equality match against the filter. -/
def matchesFilter (f : JobFilter) (j : Job) : Bool :=
  j.status = f.status &&
    (match f.category with
     | none => true
     | some c => j.category = c)

/-- The sort key `{ createdAt: -1 }`: newest first.  (The store leaves ordering
on ties unspecified; any sorted permutation models it.) -/
def createdDesc (a b : Job) : Prop :=
  b.createdAt ≤ a.createdAt

instance : DecidableRel createdDesc :=
  fun a b => Nat.decLe b.createdAt a.createdAt

instance : IsTotal Job createdDesc :=
  ⟨fun a b => Nat.le_total b.createdAt a.createdAt⟩

instance : IsTrans Job createdDesc :=
  ⟨fun _ _ _ h1 h2 => Nat.le_trans h2 h1⟩

/-- Model of `findJobs`: `Job.find(filter).sort({createdAt:-1}).skip(skip).limit(limit)`
(the field projection `.select(...)` is left to the output
mapping of the controller). -/
def findJobs (store : Store) (filter : JobFilter) (skip limit : Nat) : List Job :=
  (((List.insertionSort createdDesc (store.filter (matchesFilter filter))).drop skip).take limit)

/-- The `$geoNear` match: the coordinates of the document exist, lie within
`maxDistance` meters of `near`, and the `query` filter holds.  Documents
without an indexed coordinate are not produced by `$geoNear`. -/
def geoNearMatch (dist : Dist) (center : Coord) (maxDistance : Nat)
    (f : JobFilter) (j : Job) : Bool :=
  (match j.location.coordinates with
   | some c => dist c center ≤ maxDistance
   | none => false) && matchesFilter f j

/-- The `distanceField` value `$geoNear` attaches (0 for documents it never
emits). -/
def distTo (dist : Dist) (center : Coord) (j : Job) : Nat :=
  match j.location.coordinates with
  | some c => dist c center
  | none => 0

/-- The `$geoNear` stage emits documents nearest-first. -/
def nearerTo (dist : Dist) (center : Coord) (a b : Job) : Prop :=
  distTo dist center a ≤ distTo dist center b

instance (dist : Dist) (center : Coord) : DecidableRel (nearerTo dist center) :=
  fun a b => Nat.decLe (distTo dist center a) (distTo dist center b)

/-- Model of `findJobsNearLocation`: the aggregation pipeline
`$geoNear` (nearest-first) → `$sort {createdAt:-1}` → `$skip` → `$limit`
(→ `$project`, again left to the output mapping of the controller). -/
def findJobsNearLocation (dist : Dist) (store : Store) (center : Coord)
    (maxDistance : Nat) (filter : JobFilter) (skip limit : Nat) : List Job :=
  let nearStage :=
    List.insertionSort (nearerTo dist center)
      (store.filter (geoNearMatch dist center maxDistance filter))
  (((List.insertionSort createdDesc nearStage).drop skip).take limit)

/-- Model of `countJobs`: `Job.countDocuments(filter)`. -/
def countJobs (store : Store) (filter : JobFilter) : Nat :=
  store.countP (matchesFilter filter)

/-- Model of `countJobsNearLocation`: the `$geoNear` + `$count` pipeline. -/
def countJobsNearLocation (dist : Dist) (store : Store) (center : Coord)
    (maxDistance : Nat) (filter : JobFilter) : Nat :=
  store.countP (geoNearMatch dist center maxDistance filter)

/-- Model of `findJobById`: `Job.findById(id)`. -/
def findJobById (store : Store) (id : String) : Option Job :=
  store.find? (fun j => j._id == id)

/-- A mongoose update document: each present top-level field is `$set`,
replacing the stored field wholesale (`location` in particular). -/
structure JobUpdates where
  title : Option String := none
  description : Option String := none
  category : Option String := none
  status : Option String := none
  imageUrl : Option String := none
  location : Option GeoPoint := none

/-- Apply an update document to one record; `updatedAt` is refreshed
unconditionally (`{ ...updates, updatedAt: Date.now() }`). -/
def applyUpdates (u : JobUpdates) (now : Nat) (j : Job) : Job :=
  { j with
    title := u.title.getD j.title
    description := u.description.getD j.description
    category := u.category.getD j.category
    status := u.status.getD j.status
    imageUrl := match u.imageUrl with | some v => some v | none => j.imageUrl
    location := u.location.getD j.location
    updatedAt := now }

/-- Model of `updateJobById`: `Job.findByIdAndUpdate(id, {...updates, updatedAt}, {new:true})`.
Records sharing the identity (never the case in MongoDB) are all updated;
the returned document is the updated record. -/
def updateJobById (store : Store) (id : String) (u : JobUpdates) (now : Nat) :
    Store × Option Job :=
  match findJobById store id with
  | none => (store, none)
  | some j =>
      let j' := applyUpdates u now j
      (store.map (fun x => if x._id == id then applyUpdates u now x else x), some j')

/-- Model of `deleteJobById`: `Job.findByIdAndDelete(id)` — remove the matching
record and return it, or `none`. -/
def deleteJobById (store : Store) (id : String) : Store × Option Job :=
  match findJobById store id with
  | none => (store, none)
  | some j => (store.eraseP (fun x => x._id == id), some j)

/-- Model of `mongoose.Types.ObjectId.isValid`: true for 24-character hex strings and
for 12-character strings (12 bytes). -/
def isValidObjectId (id : String) : Bool :=
  (id.length == 24 &&
    id.toList.all (fun c =>
      c.isDigit || ('a' ≤ c && c ≤ 'f') || ('A' ≤ c && c ≤ 'F'))) ||
  id.length == 12

/-- The `location` object of a request body: the user supplies a postcode
(and could supply raw coordinates, which no validator strips). -/
structure LocInput where
  postcode : Option String := none
  coordinates : Option Coord := none
deriving DecidableEq

/-- The mongoose cast of a raw location object against the schema: `type`
defaults to `"Point"`; whatever fields are present are kept. -/
def castLocation (l : LocInput) : GeoPoint :=
  { type := "Point", coordinates := l.coordinates, postcode := l.postcode }

/-- The body of `POST /api/jobs`:
`{ title, description, category, location, image }`. -/
structure PostBody where
  title : String
  description : String
  category : String
  location : LocInput
  image : Option String := none

/-- Outcome of `postJobs`: HTTP 400 with a message, or HTTP 201 with the
identity of the new job. -/
inductive PostResult where
  | badRequest (message : String)
  | created (jobId : String)
deriving DecidableEq

/-- Model of `postJobs` from `src/controllers/jobsController.js`: geocode the
supplied postcode; on failure answer 400 naming the postcode and write
nothing; on success persist the record with the GeoJSON location
`{ type: "Point", ...geo }`.  `newId`/`now` stand for the store-assigned
identity and clock; `userId` is `req.user?.id` (else the mock id);
`status`/`tradesmanId` take the schema defaults. -/
def postJobs (lookup : Lookup) (store : Store) (body : PostBody)
    (userId : Option String) (newId : String) (now : Nat) : Store × PostResult :=
  match (geocodePostcode lookup body.location.postcode).1 with
  | none =>
      (store, .badRequest ("Postcode not found: " ++ jsShow body.location.postcode))
  | some geo =>
      let job : Job :=
        { _id := newId
          title := body.title
          description := body.description
          category := body.category
          customerId := userId.getD ("mock-customer-id")
          imageUrl := body.image
          status := "open"
          tradesmanId := none
          location :=
            { type := "Point"
              coordinates := some geo.coordinates
              postcode := some geo.postcode }
          createdAt := now
          updatedAt := now }
      let saved := createJob store job
      (saved.1, .created saved.2._id)

/-- Query parameters of `GET /api/jobs` (already validated to integers by
the middleware, hence `Nat`).  Missing parameters are `none`. -/
structure JobQuery where
  category : Option String := none
  radius : Option Nat := none
  location : Option String := none
  page : Option Nat := none
  limit : Option Nat := none

/-- The per-item shape of the listing: the displayed `location` is the stored
postcode (`j.location.postcode`), never the coordinates. -/
structure JobSummary where
  id : String
  title : String
  description : String
  location : Option String
  status : String
  customerId : String
  category : String
  createdAt : Nat
deriving DecidableEq

/-- The mapping `jobs.map(j => ({...}))` in the response of the controller. -/
def toSummary (j : Job) : JobSummary :=
  { id := j._id
    title := j.title
    description := j.description
    location := j.location.postcode
    status := j.status
    customerId := j.customerId
    category := j.category
    createdAt := j.createdAt }

/-- Pagination metadata of the listing response. -/
structure Pagination where
  page : Nat
  limit : Nat
  total : Nat
  pages : Nat
deriving DecidableEq

/-- Computes `Math.ceil(total / limit)` for a positive integer `limit`. -/
def ceilDiv (a b : Nat) : Nat := (a + b - 1) / b

/-- The listing response body. -/
structure ListResponse where
  jobs : List JobSummary
  pagination : Pagination
deriving DecidableEq

/-- Model of `getJobs` from `src/controllers/jobsController.js`: defaults
`radius = 5`, `page = 1`, `limit = 10`; filter `{ status: "open" }` plus
optional category; `skip = (page-1)*limit`.  A truthy `location` is
geocoded: on success the spatial query and spatial count run with
`radius * 1000` meters; on failure, and when no location was given, the
plain filtered query and plain count run. -/
def getJobs (lookup : Lookup) (dist : Dist) (store : Store) (q : JobQuery) :
    ListResponse :=
  let radius := q.radius.getD 5
  let page := q.page.getD 1
  let limit := q.limit.getD 10
  let filter : JobFilter := { status := "open", category := q.category }
  let skip := (page - 1) * limit
  let found : List Job × Nat :=
    if jsTruthy q.location then
      match (geocodePostcode lookup q.location).1 with
      | some geo =>
          (findJobsNearLocation dist store geo.coordinates (radius * 1000)
             filter skip limit,
           countJobsNearLocation dist store geo.coordinates (radius * 1000)
             filter)
      | none =>
          (findJobs store filter skip limit, countJobs store filter)
    else
      (findJobs store filter skip limit, countJobs store filter)
  { jobs := found.1.map toSummary
    pagination :=
      { page := page
        limit := limit
        total := found.2
        pages := ceilDiv found.2 limit } }

/-- The body of `PUT /api/jobs/:id`: any subset of the updatable fields. -/
structure UpdateBody where
  title : Option String := none
  description : Option String := none
  category : Option String := none
  status : Option String := none
  imageUrl : Option String := none
  location : Option LocInput := none

/-- Outcome of `updateJob`: 400 invalid id, 404, 400 with a message, or the
updated job. -/
inductive UpdateResult where
  | invalidId
  | notFound
  | badRequest (message : String)
  | updated (job : Job)
deriving DecidableEq

/-- The tail of `updateJob` once the `location` field of the update document
has been settled: build the update document and run `updateJobById`.  The
`none` branch of the lookup is unreachable here (existence was checked and
the store not touched in between). -/
def runUpdate (store : Store) (id : String) (body : UpdateBody) (now : Nat)
    (loc : Option GeoPoint) : Store × UpdateResult :=
  let u : JobUpdates :=
    { title := body.title
      description := body.description
      category := body.category
      status := body.status
      imageUrl := body.imageUrl
      location := loc }
  match updateJobById store id u now with
  | (store', some j) => (store', .updated j)
  | (store', none) => (store', .notFound)

/-- Model of `updateJob` from `src/controllers/jobsController.js`: validate the id,
check existence, and if `updates.location?.postcode` is truthy geocode it —
rejecting the whole update on failure, otherwise replacing
`updates.location` with the complete GeoJSON point — before delegating to
`updateJobById`.  A non-truthy `location` value passes through unchanged. -/
def updateJob (lookup : Lookup) (store : Store) (id : String)
    (body : UpdateBody) (now : Nat) : Store × UpdateResult :=
  if isValidObjectId id = false then (store, .invalidId)
  else
    match findJobById store id with
    | none => (store, .notFound)
    | some _ =>
        match body.location with
        | some locIn =>
            if jsTruthy locIn.postcode then
              match (geocodePostcode lookup locIn.postcode).1 with
              | none =>
                  (store, .badRequest
                    ("Postcode not found: " ++ jsShow locIn.postcode))
              | some geo =>
                  runUpdate store id body now
                    (some { type := "Point"
                            coordinates := some geo.coordinates
                            postcode := some geo.postcode })
            else runUpdate store id body now (some (castLocation locIn))
        | none => runUpdate store id body now none

/-- Outcome of `deleteJob`: 400 invalid id, 404, or success. -/
inductive DeleteResult where
  | invalidId
  | notFound
  | deleted
deriving DecidableEq

/-- What `deleteJob` leaves behind: the store, the HTTP outcome, and
whether any release request was issued to the image-store collaborator
during the call. -/
structure DeleteOutcome where
  store : Store
  result : DeleteResult
  imageReleaseRequested : Bool

/-- Model of `deleteJob` from `src/controllers/jobsController.js` (lines 228–245):
validate the id, `findByIdAndDelete`, answer 404 or success.  The handler
contains no call to any image-store collaborator — no Cloudinary or other
release request appears anywhere in it — so `imageReleaseRequested` is
never set. -/
def deleteJob (store : Store) (id : String) : DeleteOutcome :=
  if isValidObjectId id = false then ⟨store, .invalidId, false⟩
  else
    match deleteJobById store id with
    | (store', none) => ⟨store', .notFound, false⟩
    | (store', some _) => ⟨store', .deleted, false⟩

/-- Stores reachable from the empty store through the controller
operations (create, update, delete), for a fixed external lookup. -/
inductive Reachable (lookup : Lookup) : Store → Prop where
  | empty : Reachable lookup []
  | create (s : Store) (body : PostBody) (userId : Option String)
      (newId : String) (now : Nat) (h : Reachable lookup s) :
      Reachable lookup (postJobs lookup s body userId newId now).1
  | update (s : Store) (id : String) (body : UpdateBody) (now : Nat)
      (h : Reachable lookup s) :
      Reachable lookup (updateJob lookup s id body now).1
  | delete (s : Store) (id : String) (h : Reachable lookup s) :
      Reachable lookup (deleteJob s id).store

/-- A location sub-document in which a nonempty postcode is always
accompanied by a coordinate pair. -/
def geoPointOk (g : GeoPoint) : Bool :=
  match g.postcode, g.coordinates with
  | some p, none => p == ""
  | _, _ => true

/-- The invariant that does hold of stored locations: a nonempty postcode
is never stored without a coordinate pair. -/
def postcodeImpliesCoord (j : Job) : Bool :=
  geoPointOk j.location

/-- Holds when `a` occupies an earlier position than `b` in `l`. -/
def jobBefore (l : List Job) (a b : Job) : Prop :=
  ∃ i j : Fin l.length, (i : Nat) < (j : Nat) ∧ l.get i = a ∧ l.get j = b

/-- The stronger location invariant of the spec as claimed: the record carries
*both* a coordinate pair and a nonempty postcode. -/
def locationComplete (j : Job) : Bool :=
  j.location.coordinates.isSome &&
    (match j.location.postcode with
     | some p => p ≠ ""
     | none => false)

/-! Concrete fixtures used by witnesses and counterexamples. -/

/-- A lookup resolving the canonical postcode "SW1A 1AA". -/
def lookupDemo : Lookup := fun s =>
  if s == "SW1A 1AA" then
    some { coordinates := (-1, 51), postcode := "SW1A 1AA" }
  else none

/-- A lookup that recognises the lower-case query "sw1a1aa" and answers
with the canonical form "SW1A 1AA" in its payload, the way the postcode
API normalises its `result.postcode`. -/
def lookupLower : Lookup := fun s =>
  if s == "sw1a1aa" then
    some { coordinates := (-1, 51), postcode := "SW1A 1AA" }
  else none

/-- A creation request body with a resolvable postcode. -/
def bodyDemo : PostBody :=
  { title := "fix sink"
    description := "leaky kitchen sink"
    category := "plumbing"
    location := { postcode := some ("SW1A 1AA") } }

/-- Store after creating one job from `bodyDemo`. -/
def storeOne : Store :=
  (postJobs lookupDemo [] bodyDemo none ("aaaaaaaaaaaa") 100).1

/-- An update body supplying a location object with coordinates but no
postcode (nothing in the request validators rejects it). -/
def updNoPostcode : UpdateBody :=
  { location := some { coordinates := some (2, 3) } }

/-- Store after creating one job and then updating its location with
`updNoPostcode`. -/
def storeUpdated : Store :=
  (updateJob lookupDemo storeOne ("aaaaaaaaaaaa") updNoPostcode 200).1

/-- An open job whose only coordinates lie far from everything. -/
def jobFar : Job :=
  { _id := "bbbbbbbbbbbb"
    title := "prune hedge"
    description := "back garden hedge"
    category := "gardening"
    customerId := "cust-1"
    location := { coordinates := some (10, 10), postcode := some ("FA1 1RR") }
    createdAt := 1
    updatedAt := 1 }

/-- A distance function under which everything is 6000 m away (outside the
default 5000 m bound). -/
def distFar : Dist := fun _ _ => 6000

/-- A distance function under which everything is adjacent. -/
def distZero : Dist := fun _ _ => 0

/-- A job carrying an image reference. -/
def jobWithImage : Job :=
  { _id := "cccccccccccc"
    title := "paint fence"
    description := "front fence"
    category := "painting"
    customerId := "cust-2"
    imageUrl := some ("https://img.example/1.png")
    location := { coordinates := some (0, 0), postcode := some ("AA1 1AA") }
    createdAt := 2
    updatedAt := 2 }

/-- The older of two open jobs used for the ordering witness. -/
def jobOld : Job :=
  { _id := "dddddddddddd"
    title := "mow lawn"
    description := "small lawn"
    category := "gardening"
    customerId := "cust-3"
    location := { coordinates := some (1, 1), postcode := some ("BB1 1BB") }
    createdAt := 10
    updatedAt := 10 }

/-- The newer of two open jobs used for the ordering witness. -/
def jobNew : Job :=
  { _id := "eeeeeeeeeeee"
    title := "fit shelf"
    description := "one shelf"
    category := "carpentry"
    customerId := "cust-4"
    location := { coordinates := some (1, 2), postcode := some ("CC1 1CC") }
    createdAt := 20
    updatedAt := 20 }

/-! # Theorems -/

/-- C1: when the location resolver fails on the supplied postcode, `create`
answers 400 with a message naming that postcode and returns the store
untouched — no record is written. -/
theorem postJobs_unresolvable_rejects (lookup : Lookup) (store : Store)
    (body : PostBody) (userId : Option String) (newId : String) (now : Nat)
    (pc : String) (hpc : body.location.postcode = some pc)
    (hfail : (geocodePostcode lookup body.location.postcode).1 = none) :
    postJobs lookup store body userId newId now =
      (store, PostResult.badRequest ("Postcode not found: " ++ pc)) := by
  unfold postJobs
  rw [hfail, hpc]
  rfl

/-- Witness for C1: creating with the unresolvable postcode "ZZ99 9ZZ"
against an everywhere-failing resolver leaves the empty store empty and
reports the postcode. -/
theorem postJobs_unresolvable_rejects_witness :
    postJobs (fun _ => none) []
      { title := "fix sink", description := "leaky kitchen sink",
        category := "plumbing", location := { postcode := some ("ZZ99 9ZZ") } }
      none ("aaaaaaaaaaaa") 0 =
      ([], PostResult.badRequest ("Postcode not found: " ++ "ZZ99 9ZZ")) :=
  postJobs_unresolvable_rejects (fun _ => none) []
    { title := "fix sink", description := "leaky kitchen sink",
      category := "plumbing", location := { postcode := some ("ZZ99 9ZZ") } }
    none ("aaaaaaaaaaaa") 0 ("ZZ99 9ZZ") rfl (by decide)

/-- C5 counterexample: the external lookup succeeds on "sw1a1aa" and its
payload carries the canonical postcode "SW1A 1AA", yet `geocodePostcode`
hands back the raw user-supplied string "sw1a1aa" — refuting "returns the
canonical (normalized) postcode from the external response, never the raw
user-supplied string". -/
theorem geocode_raw_postcode_counterexample :
    lookupLower ("sw1a1aa") =
      some { coordinates := (-1, 51), postcode := "SW1A 1AA" } ∧
    (geocodePostcode lookupLower (some ("sw1a1aa"))).1 =
      some { coordinates := (-1, 51), postcode := "sw1a1aa" } ∧
    ("sw1a1aa" : String) ≠ "SW1A 1AA" := by decide

/-- C5 as amended: on a successful external lookup, `geocodePostcode`
returns the coordinate pair of the response together with the *trimmed
user-supplied* postcode string; the canonical postcode carried in the
response is discarded. -/
theorem geocode_returns_trimmed_input (lookup : Lookup) (p : String)
    (ext : ExtResult) (hp : p ≠ "") (hlook : lookup (jsTrim p) = some ext) :
    (geocodePostcode lookup (some p)).1 =
      some { coordinates := ext.coordinates, postcode := jsTrim p } := by
  unfold geocodePostcode
  simp only [jsTruthy, jsShow, hp, decide_not, hlook]
  simp [hp]

/-- Witness for C5 as amended: resolving " sw1a1aa " yields the trimmed
input "sw1a1aa" as postcode even though the response says "SW1A 1AA". -/
theorem geocode_returns_trimmed_input_witness :
    (geocodePostcode lookupLower (some (" sw1a1aa "))).1 =
      some { coordinates := (-1, 51), postcode := jsTrim (" sw1a1aa ") } :=
  geocode_returns_trimmed_input lookupLower (" sw1a1aa ")
    { coordinates := (-1, 51), postcode := "SW1A 1AA" } (by decide) (by decide)

/-- C6 counterexample: on the whitespace-only input " " the function does
issue the external call (the call flag is `true`) — refuting "for every
empty or whitespace-only input it returns no result without making any
external call". -/
theorem geocode_whitespace_calls_counterexample :
    geocodePostcode (fun _ => none) (some (" ")) = (none, true) := by decide

/-- C6 as amended: a missing or empty postcode yields no result without an
external call; every other input — including whitespace-only strings — is
trimmed and then drives exactly one external lookup of the trimmed string,
whose answer (with the trimmed string as postcode) is returned. -/
theorem geocode_trim_and_empty (lookup : Lookup) (p : String) (hp : p ≠ "") :
    geocodePostcode lookup none = (none, false) ∧
    geocodePostcode lookup (some ("")) = (none, false) ∧
    geocodePostcode lookup (some p) =
      ((lookup (jsTrim p)).map
        (fun r => { coordinates := r.coordinates, postcode := jsTrim p }),
       true) := by
  refine ⟨rfl, rfl, ?_⟩
  unfold geocodePostcode
  simp only [jsTruthy, jsShow, hp, decide_not]
  cases h : lookup (jsTrim p) <;> simp [hp, h]

/-- Witness for C6 as amended: instantiated at the whitespace-only
input " ", whose trimmed form is empty, against a failing lookup. -/
theorem geocode_trim_and_empty_witness :
    geocodePostcode (fun _ => none) none = (none, false) ∧
    geocodePostcode (fun _ => none) (some ("")) = (none, false) ∧
    geocodePostcode (fun _ => none) (some (" ")) =
      (((fun _ => none : Lookup) (jsTrim (" "))).map
        (fun r => { coordinates := r.coordinates, postcode := jsTrim (" ") }),
       true) :=
  geocode_trim_and_empty (fun _ => none) " " (by decide)

/-- C8 counterexample: deleting an existing job that carries an image
reference confirms success while no release request is ever issued to the
image-store collaborator — refuting the claim that delete requests the release of the image before
confirming deletion success". -/
theorem deleteJob_no_image_release_counterexample :
    jobWithImage.imageUrl = some ("https://img.example/1.png") ∧
    (deleteJob [jobWithImage] "cccccccccccc").result = DeleteResult.deleted ∧
    (deleteJob [jobWithImage] "cccccccccccc").imageReleaseRequested = false := by
  decide

/-- C8 as amended: `deleteJob` never requests an image release from the
image-store collaborator — deletion success is confirmed without any such
call, whatever the store and identity. -/
theorem deleteJob_never_requests_release (store : Store) (id : String) :
    (deleteJob store id).imageReleaseRequested = false := by
  unfold deleteJob
  split
  · rfl
  · split
    · rfl
    · rfl

/-- Erasing the single match of a predicate leaves no match. -/
theorem countP_eraseP_eq_zero {α : Type} (p : α → Bool) :
    ∀ l : List α, l.countP p = 1 → (l.eraseP p).countP p = 0 := by
  intro l
  induction l with
  | nil => intro h; simp at h
  | cons a t ih =>
      intro h
      cases hp : p a with
      | true =>
          rw [List.eraseP_cons_of_pos hp]
          rw [List.countP_cons_of_pos p t hp] at h
          omega
      | false =>
          have hn : ¬ p a = true := by simp [hp]
          rw [List.eraseP_cons_of_neg hn]
          rw [List.countP_cons_of_neg p t hn] at h
          rw [List.countP_cons_of_neg p (t.eraseP p) hn]
          exact ih h

/-- C9: with a well-formed identity matched by exactly one record, the
first `delete` answers Deleted and the second, on the resulting store,
answers NotFound. -/
theorem deleteJob_idempotent (store : Store) (id : String)
    (hvalid : isValidObjectId id = true)
    (hone : store.countP (fun j => j._id == id) = 1) :
    (deleteJob store id).result = DeleteResult.deleted ∧
    (deleteJob (deleteJob store id).store id).result = DeleteResult.notFound := by
  obtain ⟨j0, hj0⟩ : ∃ j0, store.find? (fun j => j._id == id) = some j0 := by
    have hs : (store.find? (fun j => j._id == id)).isSome := by
      rw [List.find?_isSome]
      exact List.countP_pos_iff.mp (by omega)
    cases h : store.find? (fun j => j._id == id) with
    | none => rw [h] at hs; simp at hs
    | some j => exact ⟨j, rfl⟩
  have h0 : ((store.eraseP (fun x => x._id == id)).find?
      (fun j => j._id == id)) = none := by
    rw [List.find?_eq_none]
    intro x hx
    exact List.countP_eq_zero.mp (countP_eraseP_eq_zero _ store hone) x hx
  constructor
  · simp [deleteJob, deleteJobById, findJobById, hvalid, hj0]
  · simp [deleteJob, deleteJobById, findJobById, hvalid, hj0, h0]

/-- Witness for C9: one stored job, deleted twice. -/
theorem deleteJob_idempotent_witness :
    (deleteJob [jobOld] "dddddddddddd").result = DeleteResult.deleted ∧
    (deleteJob (deleteJob [jobOld] "dddddddddddd").store
      "dddddddddddd").result = DeleteResult.notFound :=
  deleteJob_idempotent [jobOld] "dddddddddddd" (by decide) (by decide)

/-- C10: with `radius`, `page` and `limit` all omitted, a resolvable
location query runs the spatial search and count bounded to 5000 meters
with `skip = 0` and `limit = 10`, reporting `page = 1` and `limit = 10`;
with no location either, the defaults `page = 1` and `limit = 10` are
reported as well. -/
theorem getJobs_defaults (lookup : Lookup) (dist : Dist) (store : Store)
    (cat : Option String) (pc : String) (geo : GeoResult)
    (hpc : pc ≠ "")
    (hgeo : (geocodePostcode lookup (some pc)).1 = some geo) :
    getJobs lookup dist store { category := cat, location := some pc } =
      { jobs := (findJobsNearLocation dist store geo.coordinates 5000
                  { status := "open", category := cat } 0 10).map toSummary
        pagination :=
          { page := 1
            limit := 10
            total := countJobsNearLocation dist store geo.coordinates 5000
                      { status := "open", category := cat }
            pages := ceilDiv (countJobsNearLocation dist store geo.coordinates
                      5000 { status := "open", category := cat }) 10 } } ∧
    (getJobs lookup dist store { category := cat }).pagination.page = 1 ∧
    (getJobs lookup dist store { category := cat }).pagination.limit = 10 := by
  refine ⟨?_, rfl, rfl⟩
  unfold getJobs
  simp only [jsTruthy, hpc, decide_not, Option.getD, hgeo]
  norm_num

/-- Witness for C10: the defaults observed on a concrete store and
resolver. -/
theorem getJobs_defaults_witness :
    getJobs lookupDemo distZero [jobOld]
        { category := none, location := some ("SW1A 1AA") } =
      { jobs := (findJobsNearLocation distZero [jobOld] (-1, 51) 5000
                  { status := "open", category := none } 0 10).map toSummary
        pagination :=
          { page := 1
            limit := 10
            total := countJobsNearLocation distZero [jobOld] (-1, 51) 5000
                      { status := "open", category := none }
            pages := ceilDiv (countJobsNearLocation distZero [jobOld] (-1, 51)
                      5000 { status := "open", category := none }) 10 } } ∧
    (getJobs lookupDemo distZero [jobOld] { category := none }).pagination.page = 1 ∧
    (getJobs lookupDemo distZero [jobOld] { category := none }).pagination.limit = 10 :=
  getJobs_defaults lookupDemo distZero [jobOld] none ("SW1A 1AA")
    { coordinates := (-1, 51), postcode := "SW1A 1AA" } (by decide) (by decide)

/-- Updating the record with the matching identity and then looking that
identity up finds exactly the updated record, provided the update keeps
the identity. -/
theorem find?_id_map_update (store : Store) (id : String) (g : Job → Job)
    (hg : ∀ x, (g x)._id = x._id) :
    (store.map (fun x => if x._id == id then g x else x)).find?
        (fun j => j._id == id) =
      (store.find? (fun j => j._id == id)).map g := by
  induction store with
  | nil => rfl
  | cons a t ih =>
      cases h : (a._id == id) with
      | true =>
          have hga : ((g a)._id == id) = true := by rw [hg a]; exact h
          rw [List.map_cons, if_pos h,
            @List.find?_cons_of_pos _ (fun j => j._id == id) (g a) _ hga,
            @List.find?_cons_of_pos _ (fun j => j._id == id) a _ h]
          rfl
      | false =>
          have hn : ¬ ((a._id == id) = true) := by simp [h]
          rw [List.map_cons, if_neg hn]
          rw [@List.find?_cons_of_neg _ (fun j => j._id == id) a _ hn]
          rw [@List.find?_cons_of_neg _ (fun j => j._id == id) a _ hn]
          rw [ih]

/-- C7: an update whose location carries a resolvable (truthy) postcode
fully replaces the stored location sub-entity with the newly resolved
GeoJSON point — the answer and the stored record both carry exactly the
new coordinates and new postcode, whatever location was stored before. -/
theorem updateJob_replaces_location (lookup : Lookup) (store : Store)
    (id : String) (body : UpdateBody) (now : Nat) (j0 : Job)
    (locIn : LocInput) (pc : String) (geo : GeoResult)
    (hvalid : isValidObjectId id = true)
    (hex : findJobById store id = some j0)
    (hloc : body.location = some locIn)
    (hpc : locIn.postcode = some pc) (hne : pc ≠ "")
    (hgeo : (geocodePostcode lookup locIn.postcode).1 = some geo) :
    ∃ j', (updateJob lookup store id body now).2 = UpdateResult.updated j' ∧
      findJobById (updateJob lookup store id body now).1 id = some j' ∧
      j'.location = { type := "Point", coordinates := some geo.coordinates,
                      postcode := some geo.postcode } := by
  have heq : updateJob lookup store id body now =
      runUpdate store id body now
        (some { type := "Point", coordinates := some geo.coordinates,
                postcode := some geo.postcode }) := by
    rw [hpc] at hgeo
    unfold updateJob
    simp only [hvalid, hex, hloc, hpc, jsTruthy, hne, decide_not, hgeo]
    simp [hne, hgeo]
  set u : JobUpdates :=
    { title := body.title
      description := body.description
      category := body.category
      status := body.status
      imageUrl := body.imageUrl
      location := some { type := "Point", coordinates := some geo.coordinates,
                         postcode := some geo.postcode } } with hu
  refine ⟨applyUpdates u now j0, ?_, ?_, rfl⟩
  · rw [heq]
    unfold runUpdate updateJobById
    rw [hex]
  · rw [heq]
    unfold runUpdate updateJobById
    rw [hex]
    unfold findJobById
    rw [find?_id_map_update store id (applyUpdates u now) (fun _ => rfl)]
    unfold findJobById at hex
    rw [hex]
    rfl

/-- Witness for C7: updating the postcode of the stored job to the resolvable
"SW1A 1AA" leaves a record whose location is exactly the new point. -/
theorem updateJob_replaces_location_witness :
    ∃ j', (updateJob lookupDemo [jobOld] "dddddddddddd"
        { location := some { postcode := some ("SW1A 1AA") } } 300).2 =
          UpdateResult.updated j' ∧
      findJobById (updateJob lookupDemo [jobOld] "dddddddddddd"
        { location := some { postcode := some ("SW1A 1AA") } } 300).1
        "dddddddddddd" = some j' ∧
      j'.location = { type := "Point", coordinates := some (-1, 51),
                      postcode := some ("SW1A 1AA") } :=
  updateJob_replaces_location lookupDemo [jobOld] "dddddddddddd"
    { location := some { postcode := some ("SW1A 1AA") } } 300 jobOld
    { postcode := some ("SW1A 1AA") } "SW1A 1AA"
    { coordinates := (-1, 51), postcode := "SW1A 1AA" }
    (by decide) (by decide) rfl rfl (by decide) (by decide)

/-- Creation preserves the location invariant: the location of the created
record always carries coordinates. -/
theorem postJobs_preserves_inv (lookup : Lookup) (store : Store)
    (body : PostBody) (userId : Option String) (newId : String) (now : Nat)
    (hstore : ∀ j ∈ store, postcodeImpliesCoord j = true) :
    ∀ j ∈ (postJobs lookup store body userId newId now).1,
      postcodeImpliesCoord j = true := by
  intro j hj
  unfold postJobs at hj
  cases hg : (geocodePostcode lookup body.location.postcode).1 with
  | none =>
      rw [hg] at hj
      exact hstore j hj
  | some geo =>
      rw [hg] at hj
      simp [createJob] at hj
      rcases hj with h | h
      · exact hstore j h
      · subst h
        rfl

/-- A location object whose postcode is falsy (absent or empty) satisfies
the invariant after the schema cast, whatever its coordinates. -/
theorem geoPointOk_castLocation (locIn : LocInput)
    (h : jsTruthy locIn.postcode = false) :
    geoPointOk (castLocation locIn) = true := by
  unfold castLocation geoPointOk
  cases hp : locIn.postcode with
  | none => rfl
  | some p =>
      rw [hp] at h
      simp [jsTruthy] at h
      subst h
      cases locIn.coordinates <;> rfl

/-- The tail of an update preserves the location invariant whenever the
settled location value does. -/
theorem runUpdate_preserves_inv (store : Store) (id : String)
    (body : UpdateBody) (now : Nat) (loc : Option GeoPoint)
    (hstore : ∀ j ∈ store, postcodeImpliesCoord j = true)
    (hloc : ∀ g, loc = some g → geoPointOk g = true) :
    ∀ j ∈ (runUpdate store id body now loc).1, postcodeImpliesCoord j = true := by
  intro j hj
  unfold runUpdate updateJobById at hj
  cases hf : findJobById store id with
  | none =>
      rw [hf] at hj
      exact hstore j hj
  | some j0 =>
      rw [hf] at hj
      simp at hj
      rcases hj with ⟨x, hx, hfx⟩
      by_cases hid : x._id = id
      · rw [if_pos hid] at hfx
        subst hfx
        unfold postcodeImpliesCoord applyUpdates
        cases hl : loc with
        | none => exact hstore x hx
        | some g => exact hloc g hl
      · rw [if_neg hid] at hfx
        subst hfx
        exact hstore x hx

/-- Update preserves the location invariant: every branch either leaves the
store alone, writes a fully resolved point, or writes a location whose
postcode is falsy. -/
theorem updateJob_preserves_inv (lookup : Lookup) (store : Store) (id : String)
    (body : UpdateBody) (now : Nat)
    (hstore : ∀ j ∈ store, postcodeImpliesCoord j = true) :
    ∀ j ∈ (updateJob lookup store id body now).1, postcodeImpliesCoord j = true := by
  intro j hj
  unfold updateJob at hj
  by_cases hv : isValidObjectId id = false
  · rw [if_pos hv] at hj
    exact hstore j hj
  · rw [if_neg hv] at hj
    cases hf : findJobById store id with
    | none =>
        rw [hf] at hj
        exact hstore j hj
    | some j0 =>
        rw [hf] at hj
        dsimp only at hj
        cases hbl : body.location with
        | none =>
            rw [hbl] at hj
            exact runUpdate_preserves_inv _ _ _ _ _ hstore
              (fun g hg => by cases hg) j hj
        | some locIn =>
            rw [hbl] at hj
            dsimp only at hj
            cases hjs : jsTruthy locIn.postcode with
            | true =>
                rw [if_pos hjs] at hj
                cases hgg : (geocodePostcode lookup locIn.postcode).1 with
                | none =>
                    rw [hgg] at hj
                    exact hstore j hj
                | some geo =>
                    rw [hgg] at hj
                    exact runUpdate_preserves_inv _ _ _ _ _ hstore
                      (fun g hg => by cases hg; rfl) j hj
            | false =>
                rw [if_neg (by simp [hjs])] at hj
                exact runUpdate_preserves_inv _ _ _ _ _ hstore
                  (fun g hg => by
                    cases hg
                    exact geoPointOk_castLocation locIn hjs) j hj

/-- Deletion preserves the location invariant: the resulting store is a
sublist of the original. -/
theorem deleteJob_preserves_inv (store : Store) (id : String)
    (hstore : ∀ j ∈ store, postcodeImpliesCoord j = true) :
    ∀ j ∈ (deleteJob store id).store, postcodeImpliesCoord j = true := by
  intro j hj
  unfold deleteJob deleteJobById at hj
  by_cases hv : isValidObjectId id = false
  · rw [if_pos hv] at hj
    exact hstore j hj
  · rw [if_neg hv] at hj
    cases hf : findJobById store id with
    | none =>
        rw [hf] at hj
        exact hstore j hj
    | some j0 =>
        rw [hf] at hj
        exact hstore j ((List.eraseP_sublist store).subset hj)

/-- C2 as amended: after any sequence of create, update and delete
operations, no stored job carries a nonempty postcode without a coordinate
pair.  (The stronger claimed form — that every stored job carries *both*
coordinates and a postcode — fails: see the counterexample, where an update
supplying a location without a postcode leaves coordinates only.) -/
theorem reachable_postcode_implies_coord (lookup : Lookup) (s : Store)
    (h : Reachable lookup s) : ∀ j ∈ s, postcodeImpliesCoord j = true := by
  induction h with
  | empty => intro j hj; simp at hj
  | create s body userId newId now _ ih =>
      exact postJobs_preserves_inv _ _ _ _ _ _ ih
  | update s id body now _ ih =>
      exact updateJob_preserves_inv _ _ _ _ _ ih
  | delete s id _ ih =>
      exact deleteJob_preserves_inv _ _ ih

/-- Witness for C2 as amended: the invariant evaluated over the store
reached by one create and one update. -/
theorem reachable_postcode_implies_coord_witness :
    storeUpdated.all postcodeImpliesCoord = true := by
  rw [List.all_eq_true]
  intro j hj
  exact reachable_postcode_implies_coord lookupDemo storeUpdated
    (Reachable.update storeOne ("aaaaaaaaaaaa") updNoPostcode 200
      (Reachable.create [] bodyDemo none ("aaaaaaaaaaaa") 100 Reachable.empty))
    j hj

/-- C2 counterexample: a store reached by one create (location fully
resolved) and one update (a location object carrying coordinates but no
postcode, which the request validators do not reject) holds a record with
coordinates and *no* postcode — refuting the claim that the location of a stored job always carries both a
valid coordinate pair and the postcode it was resolved from". -/
theorem location_complete_counterexample :
    Reachable lookupDemo storeUpdated ∧
    storeUpdated.map (fun j => j.location.postcode) = [none] ∧
    storeUpdated.all locationComplete = false :=
  ⟨Reachable.update storeOne ("aaaaaaaaaaaa") updNoPostcode 200
      (Reachable.create [] bodyDemo none ("aaaaaaaaaaaa") 100 Reachable.empty),
   by decide, by decide⟩

/-- C3 counterexample: one open job, 6000 m from the resolved centre.  The
spatial call reports `total = 0` while the call without a location filter
reports `total = 1` — refuting "pagination.total equals the count of open
jobs and is the same whether the location filter was applied spatially,
fell back, or was absent". -/
theorem getJobs_total_differs_counterexample :
    jobFar.status = "open" ∧
    (getJobs lookupDemo distFar [jobFar]
      { location := some ("SW1A 1AA") }).pagination.total = 0 ∧
    (getJobs lookupDemo distFar [jobFar] {}).pagination.total = 1 := by
  decide

/-- C3 as amended: `pagination.total` is independent of `page` and `limit`
and equals the store-level count of open (and category-matching) jobs under
the predicate of the path actually taken: all such jobs on the no-location
and fallback paths, and only those within the resolved radius on the
spatial path (so the spatial total may differ from the non-spatial one). -/
theorem getJobs_total_by_path (lookup : Lookup) (dist : Dist) (store : Store)
    (q : JobQuery) :
    (∀ p l, (getJobs lookup dist store
        { q with page := some p, limit := some l }).pagination.total =
      (getJobs lookup dist store q).pagination.total) ∧
    (jsTruthy q.location = false →
      (getJobs lookup dist store q).pagination.total =
        store.countP (matchesFilter { status := "open", category := q.category })) ∧
    (jsTruthy q.location = true →
      (geocodePostcode lookup q.location).1 = none →
      (getJobs lookup dist store q).pagination.total =
        store.countP (matchesFilter { status := "open", category := q.category })) ∧
    (∀ geo, (geocodePostcode lookup q.location).1 = some geo →
      (getJobs lookup dist store q).pagination.total =
        store.countP (geoNearMatch dist geo.coordinates (q.radius.getD 5 * 1000)
          { status := "open", category := q.category })) := by
  refine ⟨?_, ?_, ?_, ?_⟩
  · intro p l
    unfold getJobs
    cases h : jsTruthy q.location with
    | false => simp [h]
    | true =>
        cases hg : (geocodePostcode lookup q.location).1 with
        | none => simp [h, hg]
        | some geo => simp [h, hg]
  · intro h
    unfold getJobs
    simp [h, countJobs]
  · intro h hg
    unfold getJobs
    simp [h, hg, countJobs]
  · intro geo hg
    have ht : jsTruthy q.location = true := by
      cases h : jsTruthy q.location with
      | true => rfl
      | false =>
          exfalso
          unfold geocodePostcode at hg
          rw [h] at hg
          simp at hg
    unfold getJobs
    simp [ht, hg, countJobsNearLocation]

/-- Witness for C3 as amended: the non-spatial and spatial totals computed
on a concrete store. -/
theorem getJobs_total_by_path_witness :
    (getJobs lookupDemo distZero [jobOld] {}).pagination.total =
      List.countP (matchesFilter { status := "open", category := none }) [jobOld] ∧
    (getJobs lookupDemo distZero [jobOld]
        { location := some ("SW1A 1AA") }).pagination.total =
      List.countP (geoNearMatch distZero (-1, 51) (5 * 1000)
        { status := "open", category := none }) [jobOld] :=
  ⟨(getJobs_total_by_path lookupDemo distZero [jobOld] {}).2.1 (by decide),
   (getJobs_total_by_path lookupDemo distZero [jobOld]
      { location := some ("SW1A 1AA") }).2.2.2
      { coordinates := (-1, 51), postcode := "SW1A 1AA" } (by decide)⟩

/-- The non-spatial listing is sorted newest-first. -/
theorem findJobs_sorted (store : Store) (filter : JobFilter) (skip limit : Nat) :
    List.Pairwise createdDesc (findJobs store filter skip limit) := by
  unfold findJobs
  exact List.Pairwise.sublist
    ((List.take_sublist _ _).trans (List.drop_sublist _ _))
    (List.sorted_insertionSort createdDesc _)

/-- The spatial listing is sorted newest-first: the final `$sort` stage
overrides the distance ordering of `$geoNear`. -/
theorem findJobsNearLocation_sorted (dist : Dist) (store : Store)
    (center : Coord) (maxD : Nat) (filter : JobFilter) (skip limit : Nat) :
    List.Pairwise createdDesc
      (findJobsNearLocation dist store center maxD filter skip limit) := by
  unfold findJobsNearLocation
  exact List.Pairwise.sublist
    ((List.take_sublist _ _).trans (List.drop_sublist _ _))
    (List.sorted_insertionSort createdDesc _)

/-- In a list sorted newest-first, a strictly newer member sits strictly
earlier than a strictly older member. -/
theorem sorted_before {l : List Job} (h : List.Pairwise createdDesc l)
    {a b : Job} (ha : a ∈ l) (hb : b ∈ l) (hlt : b.createdAt < a.createdAt) :
    jobBefore l a b := by
  obtain ⟨i, hi⟩ := List.mem_iff_get.mp ha
  obtain ⟨j, hj⟩ := List.mem_iff_get.mp hb
  rcases Nat.lt_trichotomy (i : Nat) (j : Nat) with hij | hij | hij
  · exact ⟨i, j, hij, hi, hj⟩
  · exfalso
    have hab : a = b := by rw [← hi, ← hj, Fin.ext hij]
    rw [hab] at hlt
    exact Nat.lt_irrefl _ hlt
  · exfalso
    have hph := List.pairwise_iff_get.mp h j i hij
    rw [hi, hj] at hph
    exact Nat.lt_irrefl _ (Nat.lt_of_lt_of_le hlt hph)

/-- C4: both the non-spatial and the spatial listing paths order results
newest-created-first, and consequently two items of distinct creation time
appearing in both results appear in the same relative order on both
paths. -/
theorem listing_order_path_independent (dist : Dist) (store : Store)
    (center : Coord) (maxD : Nat) (filter : JobFilter)
    (skip limit skip' limit' : Nat) :
    List.Pairwise createdDesc (findJobs store filter skip limit) ∧
    List.Pairwise createdDesc
      (findJobsNearLocation dist store center maxD filter skip' limit') ∧
    ∀ a b, a ∈ findJobs store filter skip limit →
      b ∈ findJobs store filter skip limit →
      a ∈ findJobsNearLocation dist store center maxD filter skip' limit' →
      b ∈ findJobsNearLocation dist store center maxD filter skip' limit' →
      b.createdAt < a.createdAt →
      jobBefore (findJobs store filter skip limit) a b ∧
      jobBefore (findJobsNearLocation dist store center maxD filter skip' limit') a b := by
  refine ⟨findJobs_sorted store filter skip limit,
    findJobsNearLocation_sorted dist store center maxD filter skip' limit', ?_⟩
  intro a b ha1 hb1 ha2 hb2 hlt
  exact ⟨sorted_before (findJobs_sorted store filter skip limit) ha1 hb1 hlt,
    sorted_before (findJobsNearLocation_sorted dist store center maxD filter skip' limit')
      ha2 hb2 hlt⟩

/-- Witness for C4: with two open jobs both within range, the newer one
precedes the older one on both paths. -/
theorem listing_order_path_independent_witness :
    jobBefore (findJobs [jobOld, jobNew] { status := "open" } 0 10) jobNew jobOld ∧
    jobBefore (findJobsNearLocation distZero [jobOld, jobNew] (0, 0) 5000
      { status := "open" } 0 10) jobNew jobOld :=
  (listing_order_path_independent distZero [jobOld, jobNew] (0, 0) 5000
    { status := "open" } 0 10 0 10).2.2 jobNew jobOld
    (by decide) (by decide) (by decide) (by decide) (by decide)

end PostingDiscovery
